import Mathlib

/-!
Shallow embedding of the content_retriever field-resolution engine and
session protocol (src/services/agent.py, llm.py, search.py, scraper.py,
websocket.py, src/models/content.py).

External effects are modelled by oracle parameters: each call into an
external backend (LLM text generation, Tavily search, scraping, JSON
decoding) is represented by an `Except String _` value (or a function
returning one), where `Except.error` stands for the call raising an
exception and `Except.ok` for a normal return. Python `dict`s are
insertion-ordered association lists; Python `None` is `Option.none`;
a Python function that may raise is embedded as an `Except`-valued
function, and a `try/except` block matches on that `Except`.
-/

namespace ContentRetriever

/-- A scraped content item: insertion-ordered mapping of raw key to raw
value (values modelled as strings). -/
abbrev Item := List (String × String)

/-- models.content.ContentField: one resolved field. `value` is `none`
for Python `None`; `source` is one of "extracted" / "generated" /
"error" as produced by `ContentAgent._process_field`. -/
structure ContentField where
  name : String
  value : Option String
  type : String
  source : String
deriving Repr, DecidableEq

/-- The search query built in `ContentAgent._process_field`:
`f"{item.get('title', '')} {field}"`. -/
def searchQuery (field : String) (item : Item) : String :=
  ((List.lookup "title" item).getD "") ++ " " ++ field

/-- `ContentAgent._process_field`: tier 1 returns `extracted`
whenever `field in item`; otherwise the `try` block runs the search
call and then the generate call (each an oracle from its argument to
an outcome), and any exception from either call is caught by the
`except` and degraded to `source="error"`, `value=None`. -/
def process_field (search : String → Except String String)
    (generate : String → Except String String)
    (field : String) (item : Item) : ContentField :=
  match List.lookup field item with
  | some v => ⟨field, some v, "text", "extracted"⟩
  | none =>
    match search (searchQuery field item) with
    | .error _ => ⟨field, none, "text", "error"⟩
    | .ok ctx =>
      match generate ctx with
      | .ok g => ⟨field, some g, "text", "generated"⟩
      | .error _ => ⟨field, none, "text", "error"⟩

/-- `SearchService.find_information` (src/services/search.py): wraps the
Tavily search + formatting (modelled by `searchInner`) in a
`try/except` that absorbs every exception into the empty string, so the
method itself never raises. -/
def find_information (searchInner : Except String String) : String :=
  match searchInner with
  | .ok s => s
  | .error _ => ""

/-- `LLMService.generate_content` (src/services/llm.py): wraps
`_generate_text` (modelled by `genInner`) in a `try/except` that
absorbs every exception into the empty string, so the method itself
never raises. -/
def generate_content (genInner : Except String String) : String :=
  match genInner with
  | .ok s => s
  | .error _ => ""

/-- `_process_field` composed with the concrete services of the
repository: the search call is `SearchService.find_information` and the
generate call is `LLMService.generate_content`, both of which catch
their own exceptions and return a plain string, hence reach
`process_field` as `Except.ok` outcomes. -/
def process_field_services (searchInner genInner : Except String String)
    (field : String) (item : Item) : ContentField :=
  process_field (fun _ => .ok (find_information searchInner))
    (fun _ => .ok (generate_content genInner)) field item

/-- `LLMService.parse_instructions`: calls `_generate_text` (outcome
`llmText`; its exceptions propagate, since only `json.JSONDecodeError`
is caught) and then `json.loads` (modelled by `jsonDecode`, where
`none` stands for a decode error); a decode error is caught and an
empty field list is returned. -/
def parse_instructions (llmText : Except String String)
    (jsonDecode : String → Option (List String)) : Except String (List String) :=
  match llmText with
  | .error e => .error e
  | .ok s =>
    match jsonDecode s with
    | some fields => .ok fields
    | none => .ok []

/-- `WebScraper.scrape` (src/services/scraper.py): every failure path
(exception, non-ok HTTP response) returns `{"items": []}`; success
returns the extracted items. `scrapeInner` is the outcome of the
navigation/extraction. -/
def scrape (scrapeInner : Except String (List Item)) : List Item :=
  match scrapeInner with
  | .ok items => items
  | .error _ => []

/-- `ContentAgent.process_content`: for each item (in order), for each
requested field (in order), run `_process_field`; each field's result
is stored in the per-item dict under the field name. The oracles are
indexed by the item and field of the corresponding call site. -/
def process_content (search generate : Item → String → String → Except String String)
    (items : List Item) (fields : List String) :
    List (List (String × ContentField)) :=
  items.map (fun item =>
    fields.map (fun f => (f, process_field (search item f) (generate item f) f item)))

/-- models.content.ContentResponse, restricted to the fields
`process_task` populates (the two metadata entries are `url` and
`fields_extracted`). -/
structure ContentResponse where
  task_id : String
  status : String
  content : List (List (String × ContentField))
  metadata_url : String
  metadata_fields_extracted : List String
deriving Repr, DecidableEq

/-- `ContentAgent.process_task`: parse instructions (an exception here
is re-raised by the outer `except`, i.e. propagates as `Except.error`),
scrape (never raises), process content, and return a response whose
`status` is always the literal "completed". -/
def process_task (task_id : String)
    (llmText : Except String String) (jsonDecode : String → Option (List String))
    (scrapeInner : Except String (List Item))
    (search generate : Item → String → String → Except String String)
    (url instructions : String) : Except String ContentResponse :=
  match parse_instructions llmText jsonDecode with
  | .error e => .error e
  | .ok fields =>
    .ok ⟨task_id, "completed",
      process_content search generate (scrape scrapeInner) fields,
      url, fields⟩

/-- The `metadata` dict of a ContentTable: the empty-input branch of
`create_content_table` leaves it as the pydantic default `{}`
(`TableMeta.empty`); the main branch fills `total_rows` and
`generated_fields`. -/
inductive TableMeta where
  | empty : TableMeta
  | full (total_rows : Nat) (generated_fields : List String) : TableMeta
deriving Repr, DecidableEq

/-- models.content.ContentTable. Row values are the (nullable)
`ContentField.value`s. -/
structure ContentTable where
  columns : List String
  rows : List (List (String × Option String))
  metadata : TableMeta
deriving Repr, DecidableEq

/-- The generator expression `any(item[field].source == "generated" for
item in content)`: scans items in order, raises `KeyError` (modelled as
`Except.error`) at the first item lacking `field`, and short-circuits
to `True` at the first generated witness. -/
def anyGenerated (f : String) :
    List (List (String × ContentField)) → Except String Bool
  | [] => .ok false
  | item :: rest =>
    match List.lookup f item with
    | none => .error ("KeyError: " ++ f)
    | some cf =>
      if cf.source = "generated" then .ok true else anyGenerated f rest

/-- The list comprehension `[field for field in columns if any(...)]`
building `metadata["generated_fields"]`, evaluated left to right; the
first `KeyError` raised aborts the whole comprehension. -/
def generatedFields (columns : List String)
    (content : List (List (String × ContentField))) : Except String (List String) :=
  match columns with
  | [] => .ok []
  | f :: rest =>
    match anyGenerated f content with
    | .error e => .error e
    | .ok b =>
      match generatedFields rest content with
      | .error e => .error e
      | .ok gs => .ok (if b then f :: gs else gs)

/-- The row dict comprehension
`{field: item[field].value for field in columns if field in item}`:
keys in column order, a column absent from the item is silently
dropped (not mapped to null). -/
def buildRow (columns : List String) (item : List (String × ContentField)) :
    List (String × Option String) :=
  columns.filterMap (fun f => (List.lookup f item).map (fun cf => (f, cf.value)))

/-- `ContentAgent.create_content_table`: empty content returns the
all-empty table with default metadata; otherwise columns are the keys
of the FIRST item, rows are built per item, and the metadata
computation may raise `KeyError` (propagated as `Except.error`). -/
def create_content_table (content : List (List (String × ContentField))) :
    Except String ContentTable :=
  match content with
  | [] => .ok ⟨[], [], .empty⟩
  | first :: rest =>
    match generatedFields (first.map Prod.fst) (first :: rest) with
    | .error e => .error e
    | .ok gf =>
      .ok ⟨first.map Prod.fst,
        (first :: rest).map (buildRow (first.map Prod.fst)),
        .full ((first :: rest).map (buildRow (first.map Prod.fst))).length gf⟩

/-- models.content.DialogueMessage: pydantic model with required
`sender`, `message`, `message_type`, a defaulted `timestamp`
(modelled as a Nat supplied by the caller's clock) and
`requires_response` defaulting to `False`. -/
structure DialogueMessage where
  sender : String
  message : String
  timestamp : Nat
  message_type : String
  requires_response : Bool
deriving Repr, DecidableEq

/-- An inbound JSON object as far as `DialogueMessage` validation looks
at it: each pydantic field either present (with a value of the right
type) or absent. An inbound text that is not a JSON object at all is
modelled as `Option.none` at the call site. -/
structure RawMessage where
  sender : Option String
  message : Option String
  timestamp : Option Nat
  message_type : Option String
  requires_response : Option Bool
deriving Repr, DecidableEq

/-- `DialogueMessage.model_validate_json`: non-JSON input and missing
required fields raise `pydantic.ValidationError` (`Except.error`
carrying the failure reason); defaults fill `timestamp` (from the
clock `now`) and `requires_response`. -/
def validate_dialogue (raw : Option RawMessage) (now : Nat) :
    Except String DialogueMessage :=
  match raw with
  | none => .error "Invalid JSON"
  | some r =>
    match r.sender with
    | none => .error "Field required: sender"
    | some snd =>
      match r.message with
      | none => .error "Field required: message"
      | some m =>
        match r.message_type with
        | none => .error "Field required: message_type"
        | some mt =>
          .ok ⟨snd, m, r.timestamp.getD now, mt, r.requires_response.getD false⟩

/-- The per-client entry of `WebSocketManager.client_states`. -/
structure SessionState where
  last_message : Option DialogueMessage
deriving Repr, DecidableEq

/-- The `client_states` dict. -/
abbrev ClientStates := List (String × SessionState)

/-- `WebSocketManager.connect` restricted to its effect on
`client_states`: `self.client_states[client_id] = {"last_message": None}`
(dict assignment: overwrite in place if the key exists, else append). -/
def connect (states : ClientStates) (cid : String) : ClientStates :=
  if (List.lookup cid states).isSome then
    states.map (fun p => if p.1 = cid then (cid, ⟨none⟩) else p)
  else states ++ [(cid, ⟨none⟩)]

/-- `self.client_states[client_id]["last_message"] = dialogue_msg`:
raises `KeyError` (with Python's `str(KeyError)` rendering, the quoted
key) when `client_id` is not a key of `client_states`. -/
def updateLast (states : ClientStates) (cid : String) (msg : DialogueMessage) :
    Except String ClientStates :=
  if (List.lookup cid states).isSome then
    .ok (states.map (fun p => if p.1 = cid then (p.1, ⟨some msg⟩) else p))
  else .error ("KeyError: '" ++ cid ++ "'")

/-- `WebSocketManager.process_message`: validate the inbound text; a
`ValidationError` is caught and answered with an error-typed message
embedding the reason; on a valid message, storing it into
`client_states` may raise `KeyError`, which the generic
`except Exception` converts into an error-typed message; otherwise the
canned acknowledgement is returned. The returned `DialogueMessage` is
what `model_dump_json` serializes; the function returns exactly one
outbound message and never raises. -/
def process_message (states : ClientStates) (cid : String)
    (raw : Option RawMessage) (now : Nat) : ClientStates × DialogueMessage :=
  match validate_dialogue raw now with
  | .error e =>
    (states, ⟨"agent", "Invalid message format: " ++ e, now, "error", false⟩)
  | .ok msg =>
    match updateLast states cid msg with
    | .error e =>
      (states, ⟨"agent", "Error processing message: " ++ e, now, "error", false⟩)
    | .ok states' =>
      (states', ⟨"agent", "Received: " ++ msg.message, now, "response", false⟩)

/-! ## Theorems -/

/-- C3 counterexample: the claim says a key present with an EMPTY value
proceeds to the search/generate tiers; the code checks only `field in
item`, so an empty present value is returned as `extracted` (here the
successful generator, which the claim says should produce
`generated "gen"`, is never consulted). -/
theorem C3_counterexample :
    process_field (fun _ => .ok "ctx") (fun _ => .ok "gen") "author"
        [("author", "")] =
      ⟨"author", some "", "text", "extracted"⟩ ∧
    ("extracted" : String) ≠ "generated" :=
  ⟨rfl, by decide⟩

/-- C3 amended: `resolve` returns `extracted` with the verbatim item
value, independent of the search/generate oracles (they are never
invoked), exactly when the field name is a key present in the item —
with ANY value, including the empty string. -/
theorem C3_amended (field v : String) (item : Item)
    (sf gf : String → Except String String)
    (h : List.lookup field item = some v) :
    process_field sf gf field item = ⟨field, some v, "text", "extracted"⟩ := by
  unfold process_field
  rw [h]

/-- C3 witness: concrete instantiation of `C3_amended`. -/
theorem C3_witness :
    process_field (fun _ => .error "searcher down")
        (fun _ => .error "generator down") "title" [("title", "Hello")] =
      ⟨"title", some "Hello", "text", "extracted"⟩ :=
  C3_amended "title" "Hello" [("title", "Hello")]
    (fun _ => .error "searcher down") (fun _ => .error "generator down") rfl

/-- C2 counterexample: with the repository's concrete services, a
failing generator backend is absorbed by `LLMService.generate_content`
into the empty string, so resolving an absent field yields
`kind=generated` with value `""` — not `kind=error` with null value as
the claim states. -/
theorem C2_counterexample :
    process_field_services (.ok "search context") (.error "GPU OOM")
        "summary" [("title", "T")] =
      ⟨"summary", some "", "text", "generated"⟩ ∧
    ("generated" : String) ≠ "error" :=
  ⟨rfl, by decide⟩

/-- C2 amended: for a field absent from the item, resolution through
the concrete services always returns `kind=generated` — with the
generated text when the LLM succeeds, and with the EMPTY STRING when
the LLM fails (the failure is absorbed inside
`LLMService.generate_content`); `kind=error` with null value arises
exactly when the search call or the generate call itself raises an
exception at the `_process_field` level (and a raising search call
yields `kind=error` without the generator ever being consulted). -/
theorem C2_amended (field : String) (item : Item)
    (sI gI : Except String String)
    (habs : List.lookup field item = none) :
    (∀ g, gI = .ok g →
      process_field_services sI gI field item =
        ⟨field, some g, "text", "generated"⟩) ∧
    (∀ e, gI = .error e →
      process_field_services sI gI field item =
        ⟨field, some "", "text", "generated"⟩) ∧
    (∀ (sf gf : String → Except String String) (ctx e : String),
      sf (searchQuery field item) = .ok ctx → gf ctx = .error e →
      process_field sf gf field item = ⟨field, none, "text", "error"⟩) ∧
    (∀ (sf gf : String → Except String String) (e : String),
      sf (searchQuery field item) = .error e →
      process_field sf gf field item = ⟨field, none, "text", "error"⟩) := by
  refine ⟨?_, ?_, ?_, ?_⟩
  · intro g hg
    subst hg
    simp [process_field_services, process_field, find_information,
      generate_content, habs]
  · intro e he
    subst he
    simp [process_field_services, process_field, find_information,
      generate_content, habs]
  · intro sf gf ctx e hs hg
    simp [process_field, habs, hs, hg]
  · intro sf gf e hs
    simp [process_field, habs, hs]

/-- C2 witness: concrete instantiation of `C2_amended`. -/
theorem C2_witness :
    process_field_services (.ok "ctx") (.ok "a nice summary")
        "summary" [("title", "T")] =
      ⟨"summary", some "a nice summary", "text", "generated"⟩ :=
  (C2_amended "summary" [("title", "T")] (.ok "ctx")
    (.ok "a nice summary") rfl).1 "a nice summary" rfl

/-- C8 counterexample: on empty input the code returns
`ContentTable(columns=[], rows=[])`, leaving `metadata` as the pydantic
default empty dict — it does NOT contain `totalRows = 0` and
`generatedFields = []` as the claim states. -/
theorem C8_counterexample :
    create_content_table [] = .ok ⟨[], [], TableMeta.empty⟩ ∧
    TableMeta.empty ≠ TableMeta.full 0 [] :=
  ⟨rfl, by decide⟩

/-- C8 amended: on empty input the Table Builder returns
`columns = []`, `rows = []` and an EMPTY metadata map (no
`total_rows` or `generated_fields` entries). -/
theorem C8_theorem :
    create_content_table [] = .ok ⟨[], [], TableMeta.empty⟩ := rfl

/-- C4 counterexample: with two items carrying distinct single fields,
the column set is taken from the first item only (`["a"]`), not the
union `["a", "b"]` in first-appearance order. -/
theorem C4_counterexample :
    create_content_table
        [[("a", ⟨"a", some "x", "text", "generated"⟩)],
         [("b", ⟨"b", some "y", "text", "extracted"⟩)]] =
      .ok ⟨["a"], [[("a", some "x")], []], .full 2 ["a"]⟩ ∧
    (["a"] : List String) ≠ ["a", "b"] :=
  ⟨rfl, by decide⟩

/-- C4 amended: whenever the Table Builder returns a table, its columns
are exactly the field names of the FIRST resolved item, in that item's
insertion order; field names first appearing in later items are
dropped. -/
theorem C4_amended (first : List (String × ContentField))
    (rest : List (List (String × ContentField))) (tbl : ContentTable)
    (h : create_content_table (first :: rest) = .ok tbl) :
    tbl.columns = first.map Prod.fst := by
  cases hg : generatedFields (first.map Prod.fst) (first :: rest) with
  | error e => simp [create_content_table, hg] at h
  | ok gf =>
    simp [create_content_table, hg] at h
    rw [← h]

/-- C4 witness: concrete instantiation of `C4_amended`. -/
theorem C4_witness :
    (⟨["a"], [[("a", some "x")], []], .full 2 ["a"]⟩ : ContentTable).columns =
      [("a", (⟨"a", some "x", "text", "generated"⟩ : ContentField))].map Prod.fst :=
  C4_amended [("a", ⟨"a", some "x", "text", "generated"⟩)]
    [[("b", ⟨"b", some "y", "text", "extracted"⟩)]]
    ⟨["a"], [[("a", some "x")], []], .full 2 ["a"]⟩ rfl

/-- C6 counterexample: the Table Builder DOES raise — with a second
item lacking the first item's column "a", the `generated_fields`
comprehension evaluates `item["a"]` and raises `KeyError`, so
`create_content_table` propagates an exception instead of inserting
null. -/
theorem C6_counterexample :
    create_content_table
        [[("a", ⟨"a", some "x", "text", "extracted"⟩)], []] =
      .error "KeyError: a" := rfl

/-- C1 counterexample: when the instruction-parsing capability fails to
produce a field list (the LLM replies but its output fails JSON
decoding), `parse_instructions` absorbs the failure into an EMPTY field
list and the run returns `status = "completed"` — the opposite of the
claimed fatal `failed` status. -/
theorem C1_counterexample :
    parse_instructions (.ok "not-json") (fun _ => none) = .ok [] ∧
    process_task "t1" (.ok "not-json") (fun _ => none) (.ok [])
        (fun _ _ _ => .error "unused") (fun _ _ _ => .error "unused")
        "https://example.com" "get the title" =
      .ok ⟨"t1", "completed", [], "https://example.com", []⟩ ∧
    ("completed" : String) ≠ "failed" :=
  ⟨rfl, rfl, by decide⟩

/-- C1 amended: instruction-parsing failure is not uniformly fatal.
(i) If the LLM call itself raises, the exception propagates out of
`process_task` to the caller — no TaskResult (and hence no `failed`
status and no table) is produced. (ii) If the LLM replies but its
output fails JSON decoding, the failure is absorbed: the run returns
`status = "completed"` with an empty field list and every item resolved
to an empty field map. (iii) In every non-raising run the status is the
literal "completed" — `process_task` never returns `status = "failed"`. -/
theorem C1_amended (tid url instr : String) (llmText : Except String String)
    (dec : String → Option (List String)) (sI : Except String (List Item))
    (se ge : Item → String → String → Except String String) :
    (∀ e, llmText = .error e →
      process_task tid llmText dec sI se ge url instr = .error e) ∧
    (∀ s, llmText = .ok s → dec s = none →
      process_task tid llmText dec sI se ge url instr =
        .ok ⟨tid, "completed", (scrape sI).map (fun _ => []), url, []⟩) ∧
    (∀ r, process_task tid llmText dec sI se ge url instr = .ok r →
      r.status = "completed") := by
  refine ⟨?_, ?_, ?_⟩
  · intro e he
    subst he
    simp [process_task, parse_instructions]
  · intro s hs hdec
    subst hs
    simp [process_task, parse_instructions, hdec, process_content]
  · intro r hr
    cases llmText with
    | error e => simp [process_task, parse_instructions] at hr
    | ok s =>
      cases hdec : dec s with
      | none =>
        simp [process_task, parse_instructions, hdec] at hr
        rw [← hr]
      | some fields =>
        simp [process_task, parse_instructions, hdec] at hr
        rw [← hr]

/-- C1 witness: concrete instantiation of `C1_amended`, clause (ii). -/
theorem C1_witness :
    process_task "t1" (.ok "oops") (fun _ => none) (.ok [[("title", "T")]])
        (fun _ _ _ => .ok "ctx") (fun _ _ _ => .ok "gen")
        "https://example.com" "get the title" =
      .ok ⟨"t1", "completed", [[]], "https://example.com", []⟩ :=
  (C1_amended "t1" "https://example.com" "get the title" (.ok "oops")
      (fun _ => none) (.ok [[("title", "T")]])
      (fun _ _ _ => .ok "ctx") (fun _ _ _ => .ok "gen")).2.1 "oops" rfl rfl

/-- C5 counterexample: with zero scraped items the run does complete,
but the response carries no table at all, and the table the builder
produces from the empty content has `columns = []` — NOT the full
requested field list `["title"]` as the claim states. -/
theorem C5_counterexample :
    process_task "t5" (.ok "[\x22title\x22]") (fun _ => some ["title"])
        (.error "scrape failed") (fun _ _ _ => .ok "ctx")
        (fun _ _ _ => .ok "gen") "https://example.com" "get the title" =
      .ok ⟨"t5", "completed", [], "https://example.com", ["title"]⟩ ∧
    create_content_table [] = .ok ⟨[], [], TableMeta.empty⟩ ∧
    ([] : List String) ≠ ["title"] :=
  ⟨rfl, rfl, by decide⟩

/-- C5 amended: a scrape step that fails (or returns zero items) is
absorbed as an empty item list and the run returns
`status = "completed"` with an empty content list; the requested field
list survives only in the response metadata (`fields_extracted`) — the
run produces no table, and the table built from the empty content has
`columns = []`, not the requested field list. -/
theorem C5_amended (tid url instr s e : String) (fields : List String)
    (dec : String → Option (List String))
    (se ge : Item → String → String → Except String String)
    (h : dec s = some fields) :
    process_task tid (.ok s) dec (.error e) se ge url instr =
      .ok ⟨tid, "completed", [], url, fields⟩ ∧
    create_content_table [] = .ok ⟨[], [], TableMeta.empty⟩ := by
  constructor
  · simp [process_task, parse_instructions, h, scrape, process_content]
  · rfl

/-- C5 witness: concrete instantiation of `C5_amended`. -/
theorem C5_witness :
    process_task "t5" (.ok "[\x22title\x22,\x22author\x22]")
        (fun _ => some ["title", "author"]) (.error "net down")
        (fun _ _ _ => .ok "c") (fun _ _ _ => .ok "g")
        "https://example.com" "extract title and author" =
      .ok ⟨"t5", "completed", [], "https://example.com", ["title", "author"]⟩ ∧
    create_content_table [] = .ok ⟨[], [], TableMeta.empty⟩ :=
  C5_amended "t5" "https://example.com" "extract title and author"
    "[\x22title\x22,\x22author\x22]" "net down" ["title", "author"]
    (fun _ => some ["title", "author"])
    (fun _ _ _ => .ok "c") (fun _ _ _ => .ok "g") rfl

/-- When every item contains the field, the `any(...)` scan cannot
raise `KeyError`. -/
theorem anyGenerated_isOk (f : String)
    (content : List (List (String × ContentField)))
    (H : ∀ it ∈ content, (List.lookup f it).isSome) :
    ∃ b, anyGenerated f content = .ok b := by
  induction content with
  | nil => exact ⟨false, rfl⟩
  | cons it rest ih =>
    have h1 := H it (by simp)
    cases hl : List.lookup f it with
    | none => rw [hl] at h1; simp at h1
    | some cf =>
      by_cases hs : cf.source = "generated"
      · exact ⟨true, by simp [anyGenerated, hl, hs]⟩
      · obtain ⟨b, hb⟩ := ih (fun x hx => H x (by simp [hx]))
        exact ⟨b, by simp [anyGenerated, hl, hs, hb]⟩

/-- When every item contains every column, the `generated_fields`
comprehension cannot raise `KeyError`. -/
theorem generatedFields_isOk (columns : List String)
    (content : List (List (String × ContentField)))
    (H : ∀ f ∈ columns, ∀ it ∈ content, (List.lookup f it).isSome) :
    ∃ gs, generatedFields columns content = .ok gs := by
  induction columns with
  | nil => exact ⟨[], rfl⟩
  | cons f cs ih =>
    obtain ⟨b, hb⟩ := anyGenerated_isOk f content (H f (by simp))
    obtain ⟨gs, hgs⟩ := ih (fun g hg it hit => H g (by simp [hg]) it hit)
    exact ⟨if b then f :: gs else gs, by simp [generatedFields, hb, hgs]⟩

/-- When an item contains every column, its row is rectangular: the row
keys are exactly the columns, in order. -/
theorem buildRow_map_fst (columns : List String)
    (item : List (String × ContentField))
    (H : ∀ f ∈ columns, (List.lookup f item).isSome) :
    (buildRow columns item).map Prod.fst = columns := by
  induction columns with
  | nil => rfl
  | cons f cs ih =>
    have h1 := H f (by simp)
    cases hl : List.lookup f item with
    | none => rw [hl] at h1; simp at h1
    | some cf =>
      simp only [buildRow, List.filterMap_cons, hl, Option.map_some']
      simp only [List.map_cons]
      exact congrArg (f :: ·) (ih (fun g hg => H g (by simp [hg])))

/-- C6 amended: the Table Builder does not tolerate a missing field —
on an item lacking a first-item column it raises `KeyError` (see the
counterexample) and rows silently omit absent columns rather than
mapping them to null. Under the data-model invariant (every item
contains every column of the first item) it never raises, rows are
exactly `buildRow` of each item, and every row maps every column, in
column order, to that item's `FieldResult.value` (which is null for
`kind=error` results). -/
theorem C6_amended (content : List (List (String × ContentField)))
    (H : ∀ it ∈ content, ∀ f ∈ (content.headD []).map Prod.fst,
      (List.lookup f it).isSome) :
    ∃ tbl, create_content_table content = .ok tbl ∧
      tbl.columns = (content.headD []).map Prod.fst ∧
      tbl.rows = content.map (buildRow ((content.headD []).map Prod.fst)) ∧
      ∀ row ∈ tbl.rows, row.map Prod.fst = tbl.columns := by
  cases content with
  | nil => exact ⟨⟨[], [], .empty⟩, rfl, rfl, rfl, by simp⟩
  | cons first rest =>
    obtain ⟨gs, hgs⟩ := generatedFields_isOk (first.map Prod.fst) (first :: rest)
      (fun f hf it hit => H it hit f (by simpa using hf))
    refine ⟨⟨first.map Prod.fst,
        (first :: rest).map (buildRow (first.map Prod.fst)),
        .full ((first :: rest).map (buildRow (first.map Prod.fst))).length gs⟩,
      by simp [create_content_table, hgs], rfl, rfl, ?_⟩
    intro row hrow
    simp only [List.mem_map] at hrow
    obtain ⟨it, hit, hrw⟩ := hrow
    rw [← hrw]
    exact buildRow_map_fst (first.map Prod.fst) it
      (fun f hf => H it hit f (by simpa using hf))

/-- C6 witness: concrete instantiation of `C6_amended` on a two-item
content set satisfying the invariant, with one errored field. -/
theorem C6_witness :
    ∃ tbl, create_content_table
        [[("a", ⟨"a", some "1", "text", "extracted"⟩)],
         [("a", ⟨"a", none, "text", "error"⟩)]] = .ok tbl ∧
      tbl.columns =
        ([[("a", (⟨"a", some "1", "text", "extracted"⟩ : ContentField))],
          [("a", ⟨"a", none, "text", "error"⟩)]].headD []).map Prod.fst ∧
      tbl.rows =
        [[("a", (⟨"a", some "1", "text", "extracted"⟩ : ContentField))],
         [("a", ⟨"a", none, "text", "error"⟩)]].map
          (buildRow (([[("a", (⟨"a", some "1", "text", "extracted"⟩ : ContentField))],
            [("a", ⟨"a", none, "text", "error"⟩)]].headD []).map Prod.fst)) ∧
      ∀ row ∈ tbl.rows, row.map Prod.fst = tbl.columns :=
  C6_amended
    [[("a", ⟨"a", some "1", "text", "extracted"⟩)],
     [("a", ⟨"a", none, "text", "error"⟩)]]
    (by decide)

/-- C7: an inbound message that fails DialogueMessage shape validation
yields exactly one outbound message (the single `DialogueMessage`
returned) with `message_type = "error"`, `sender = "agent"` and
`requires_response = false`, whose text embeds the validation failure
reason; the client-state map is left unchanged, so the session stays
active and keeps accepting further messages. -/
theorem C7_theorem (states : ClientStates) (cid : String)
    (raw : Option RawMessage) (now : Nat) (e : String)
    (h : validate_dialogue raw now = .error e) :
    process_message states cid raw now =
      (states, ⟨"agent", "Invalid message format: " ++ e, now, "error", false⟩) := by
  unfold process_message
  rw [h]

/-- C7 witness: a message missing `sender` sent on a live session. -/
theorem C7_witness :
    process_message [("c1", ⟨none⟩)] "c1"
        (some ⟨none, some "hello", none, some "instruction", none⟩) 42 =
      ([("c1", ⟨none⟩)],
        ⟨"agent", "Invalid message format: Field required: sender", 42,
          "error", false⟩) :=
  C7_theorem [("c1", ⟨none⟩)] "c1"
    (some ⟨none, some "hello", none, some "instruction", none⟩) 42
    "Field required: sender" rfl

/-- C10: `process_message` is total (every raising operation inside the
`try` is caught and converted to a reply), and every reply — on every
path — has `sender = "agent"` and `requires_response = false`; in
particular, a well-formed message for a client identifier with no
connect-initialized state hits the `KeyError` of the state update,
which the generic handler turns into a `message_type = "error"` reply
rather than an exception. -/
theorem C10_theorem (states : ClientStates) (cid : String)
    (raw : Option RawMessage) (now : Nat) :
    (process_message states cid raw now).2.sender = "agent" ∧
    (process_message states cid raw now).2.requires_response = false ∧
    (∀ m, validate_dialogue raw now = .ok m → List.lookup cid states = none →
      (process_message states cid raw now).2.message_type = "error") := by
  refine ⟨?_, ?_, ?_⟩
  · unfold process_message
    cases hv : validate_dialogue raw now with
    | error e => rfl
    | ok m =>
      cases hu : updateLast states cid m with
      | error e => simp [hu]
      | ok s => simp [hu]
  · unfold process_message
    cases hv : validate_dialogue raw now with
    | error e => rfl
    | ok m =>
      cases hu : updateLast states cid m with
      | error e => simp [hu]
      | ok s => simp [hu]
  · intro m hv habs
    unfold process_message
    rw [hv]
    unfold updateLast
    rw [habs]
    rfl

/-- C10 witness: a well-formed message from a client never connected
(empty state map) gets an error-typed agent reply, not an exception. -/
theorem C10_witness :
    (process_message [] "ghost"
        (some ⟨some "user", some "hi", none, some "instruction", none⟩) 7).2.sender =
      "agent" ∧
    (process_message [] "ghost"
        (some ⟨some "user", some "hi", none, some "instruction", none⟩) 7).2.requires_response =
      false ∧
    (process_message [] "ghost"
        (some ⟨some "user", some "hi", none, some "instruction", none⟩) 7).2.message_type =
      "error" :=
  ⟨(C10_theorem [] "ghost"
      (some ⟨some "user", some "hi", none, some "instruction", none⟩) 7).1,
   (C10_theorem [] "ghost"
      (some ⟨some "user", some "hi", none, some "instruction", none⟩) 7).2.1,
   (C10_theorem [] "ghost"
      (some ⟨some "user", some "hi", none, some "instruction", none⟩) 7).2.2
     ⟨"user", "hi", 7, "instruction", false⟩ rfl rfl⟩

end ContentRetriever
